import Mathlib

/-!
Verification of the comparator suite in
`src/contrib/libosmium/osmium/osm/object_comparisons.hpp`.

The file defines six function objects over OSM objects and ids:
`object_equal_type_id_version`, `object_equal_type_id`, `id_order`,
`object_order_type_id_version`,
`object_order_type_id_version_without_timestamp`, and
`object_order_type_id_reverse_version`.

Embedding choices:
* An OSM object is reduced to the four fields the comparators read
  (`type`, `id`, `version`, `timestamp`); the type tag is a `Nat`
  standing for the externally ordered enumeration.
* The timestamp is `Option Nat`: `none` is the invalid/unset timestamp
  (the default-constructed `osmium::Timestamp()`), `some v` a valid one;
  in the stored comparison key an invalid timestamp sorts before every
  valid one, matching the raw `uint32` comparison in which the invalid
  sentinel is the smallest value.
* `const_tie(...) < const_tie(...)` is lexicographic comparison of the
  component keys evaluated left to right; each component is mapped
  order-isomorphically to `Nat` (`false < true` becomes `0 < 1`) and the
  tuple becomes a `List Nat` compared by `listLt`.
* `std::abs` on a signed 64-bit id is total in the embedding via the
  two's-complement wraparound `wrap64`, which is exact on
  `(-2^63, 2^63)` and maps `-2^63` to itself.
-/

namespace Osmium

/-- `2^63`, the magnitude of the smallest signed 64-bit integer. -/
def twoPow63 : Int := 9223372036854775808

/-- `2^64`, the number of distinct signed 64-bit integers. -/
def twoPow64 : Int := 18446744073709551616

/-- `INT64_MIN = -2^63`, the smallest signed 64-bit integer. -/
def int64Min : Int := -9223372036854775808

/-- Reduce an integer to the signed 64-bit value with the same residue
mod `2^64` (two's-complement wraparound). -/
def wrap64 (x : Int) : Int := (x + twoPow63) % twoPow64 - twoPow63

/-- `std::abs` on a signed 64-bit integer: the mathematical absolute
value stored back into 64 bits, so `absInt64 (-2^63) = -2^63`. -/
def absInt64 (x : Int) : Int := wrap64 (if x < 0 then -x else x)

/-- Strict comparison of C++ `bool` values: `false < true`. -/
def boolLt (a b : Bool) : Bool := !a && b

/-- `const_tie(a1, a2) < const_tie(b1, b2)` for a (bool, int) pair:
lexicographic, first component compared as `false < true`. -/
def pairLt (a b : Bool × Int) : Bool :=
  boolLt a.1 b.1 || (a.1 == b.1 && decide (a.2 < b.2))

/-- `id_order::operator()` (object_comparisons.hpp lines 89-92):
`const_tie(lhs > 0, std::abs(lhs)) < const_tie(rhs > 0, std::abs(rhs))`. -/
def id_order (lhs rhs : Int) : Bool :=
  pairLt (decide (0 < lhs), absInt64 lhs) (decide (0 < rhs), absInt64 rhs)

/-- The sort key the spec ascribes to `id_order`: the pair
`(is_positive, |id|)` with the exact absolute value, compared
lexicographically.  Stated from the spec's words, to be compared with
the source-derived `id_order`. -/
def spec_key_lt (x y : Int) : Prop :=
  (¬ 0 < x ∧ 0 < y) ∨ ((0 < x ↔ 0 < y) ∧ x.natAbs < y.natAbs)

instance (x y : Int) : Decidable (spec_key_lt x y) := by
  unfold spec_key_lt; infer_instance

/-- Insert an id into a list sorted by `id_order`. -/
def insertById (x : Int) : List Int → List Int
  | [] => [x]
  | y :: ys => if id_order x y then x :: y :: ys else y :: insertById x ys

/-- Insertion sort of a list of ids under `id_order`. -/
def sortById (l : List Int) : List Int := l.foldr insertById []

/-- The four fields of an `osmium::OSMObject` that the comparators read:
the type tag (a `Nat` standing for the externally ordered enumeration),
the signed 64-bit id, the version, and the optional timestamp
(`none` = invalid). -/
structure MapObject where
  kind : Nat
  id : Int
  version : Nat
  timestamp : Option Nat
deriving DecidableEq

/-- Modelled from the spec: `OSMObject::positive_id()` (declared in
object.hpp, outside src/) is "the absolute value of `id` as an unsigned
quantity". -/
def positive_id (m : MapObject) : Nat := m.id.natAbs

/-- The boolean `id() > 0` component of the comparison tuples. -/
def idPos (m : MapObject) : Bool := decide (0 < m.id)

/-- Order-preserving key of a timestamp: the invalid timestamp is `0`,
the smallest value, and a valid timestamp `v` is `v + 1`. -/
def tsKey : Option Nat → Nat
  | none => 0
  | some v => v + 1

/-- `Timestamp::valid()`: a timestamp is valid when it is set. -/
def tsValid (t : Option Nat) : Bool := t.isSome

/-- Lexicographic strict comparison of key lists, the embedding of
`const_tie(...) < const_tie(...)` on equal-length tuples. -/
def listLt : List Nat → List Nat → Bool
  | [], [] => false
  | [], _ :: _ => true
  | _ :: _, [] => false
  | a :: as, b :: bs => decide (a < b) || (a == b && listLt as bs)

/-- Modelled from the spec: `OSMObject::operator==` (object.hpp, outside
src/) is "true iff `kind`, `id`, and `version` all match exactly";
`object_equal_type_id_version::operator()` (lines 52-54) returns
`lhs == rhs`. -/
def object_equal_type_id_version (lhs rhs : MapObject) : Bool :=
  lhs.kind == rhs.kind && lhs.id == rhs.id && lhs.version == rhs.version

/-- `object_equal_type_id::operator()` (lines 70-73):
`lhs.type() == rhs.type() && lhs.id() == rhs.id()`. -/
def object_equal_type_id (lhs rhs : MapObject) : Bool :=
  lhs.kind == rhs.kind && lhs.id == rhs.id

/-- The tuple `(type, id > 0, positive_id, version, timestamp)` of one
object, as its list of component keys. -/
def keyV (m : MapObject) : List Nat :=
  [m.kind, (idPos m).toNat, positive_id m, m.version, tsKey m.timestamp]

/-- The tuple `(type, id > 0, positive_id, version)` of one object, as
its list of component keys. -/
def keyWT (m : MapObject) : List Nat :=
  [m.kind, (idPos m).toNat, positive_id m, m.version]

/-- Modelled from the spec: `OSMObject::operator<` (object.hpp, outside
src/) orders by "primary key `kind`, then the magnitude-signed `id`
ordering, then `version`, then `timestamp`, compared as a lexicographic
tuple in that priority order"; an invalid timestamp is the smallest
value.  `object_order_type_id_version::operator()` (lines 102-104)
returns `lhs < rhs`. -/
def object_order_type_id_version (lhs rhs : MapObject) : Bool :=
  listLt (keyV lhs) (keyV rhs)

/-- `object_order_type_id_version_without_timestamp::operator()`
(lines 122-125):
`const_tie(lhs.type(), lhs.id() > 0, lhs.positive_id(), lhs.version()) <
 const_tie(rhs.type(), rhs.id() > 0, rhs.positive_id(), rhs.version())`. -/
def object_order_type_id_version_without_timestamp (lhs rhs : MapObject) : Bool :=
  listLt (keyWT lhs) (keyWT rhs)

/-- The timestamp component placed in the LEFT tuple of
`object_order_type_id_reverse_version` (line 147):
`(lhs.timestamp().valid() && rhs.timestamp().valid()) ? rhs.timestamp()
 : osmium::Timestamp()`. -/
def revKeyL (lhs rhs : MapObject) : Nat :=
  if tsValid lhs.timestamp && tsValid rhs.timestamp then tsKey rhs.timestamp else tsKey none

/-- The timestamp component placed in the RIGHT tuple of
`object_order_type_id_reverse_version` (line 149):
`(lhs.timestamp().valid() && rhs.timestamp().valid()) ? lhs.timestamp()
 : osmium::Timestamp()`. -/
def revKeyR (lhs rhs : MapObject) : Nat :=
  if tsValid lhs.timestamp && tsValid rhs.timestamp then tsKey lhs.timestamp else tsKey none

/-- `object_order_type_id_reverse_version::operator()` (lines 145-150):
`const_tie(lhs.type(), lhs.id() > 0, lhs.positive_id(), rhs.version(), tL) <
 const_tie(rhs.type(), rhs.id() > 0, rhs.positive_id(), lhs.version(), tR)`
with the conditional timestamp components `tL`, `tR` as in `revKeyL`,
`revKeyR`. -/
def object_order_type_id_reverse_version (lhs rhs : MapObject) : Bool :=
  listLt [lhs.kind, (idPos lhs).toNat, positive_id lhs, rhs.version, revKeyL lhs rhs]
         [rhs.kind, (idPos rhs).toNat, positive_id rhs, lhs.version, revKeyR lhs rhs]

/-- By-pointer overload of `object_equal_type_id_version` (lines 57-60):
a null argument trips the `assert` (modelled as `none`); otherwise the
dereferenced objects are compared with `operator==`. -/
def object_equal_type_id_versionPtr :
    Option MapObject → Option MapObject → Option Bool
  | some lhs, some rhs => some (object_equal_type_id_version lhs rhs)
  | _, _ => none

/-- By-pointer overload of `object_equal_type_id` (lines 76-79). -/
def object_equal_type_idPtr :
    Option MapObject → Option MapObject → Option Bool
  | some lhs, some rhs => some (object_equal_type_id lhs rhs)
  | _, _ => none

/-- By-pointer overload of `object_order_type_id_version`
(lines 107-110). -/
def object_order_type_id_versionPtr :
    Option MapObject → Option MapObject → Option Bool
  | some lhs, some rhs => some (object_order_type_id_version lhs rhs)
  | _, _ => none

/-- By-pointer overload of
`object_order_type_id_version_without_timestamp` (lines 128-131). -/
def object_order_type_id_version_without_timestampPtr :
    Option MapObject → Option MapObject → Option Bool
  | some lhs, some rhs =>
      some (object_order_type_id_version_without_timestamp lhs rhs)
  | _, _ => none

/-- By-pointer overload of `object_order_type_id_reverse_version`
(lines 153-156). -/
def object_order_type_id_reverse_versionPtr :
    Option MapObject → Option MapObject → Option Bool
  | some lhs, some rhs =>
      some (object_order_type_id_reverse_version lhs rhs)
  | _, _ => none

/-- The six comparator functors declared in object_comparisons.hpp. -/
inductive Comparator where
  | objectEqualTypeIdVersion
  | objectEqualTypeId
  | idOrder
  | objectOrderTypeIdVersion
  | objectOrderTypeIdVersionWithoutTimestamp
  | objectOrderTypeIdReverseVersion
deriving DecidableEq

/-- Overload surface translated from object_comparisons.hpp: whether
the functor declares an `operator()` taking objects by reference.  Each
object comparator does; `id_order` (lines 87-94) declares a single
`operator()` taking two ids by value. -/
def hasReferenceOverload : Comparator → Bool
  | .idOrder => false
  | _ => true

/-- Overload surface translated from object_comparisons.hpp: whether
the functor declares an `operator()` taking objects by pointer.  Each
object comparator does (lines 57-60, 76-79, 107-110, 128-131, 153-156);
`id_order` (lines 87-94) declares none. -/
def hasPointerOverload : Comparator → Bool
  | .idOrder => false
  | _ => true

/-! ### Helper lemmas -/

theorem listLt_irrefl (l : List Nat) : listLt l l = false := by
  induction l with
  | nil => rfl
  | cons a as ih => simp [listLt, ih]

theorem listLt_trans : ∀ a b c : List Nat,
    listLt a b = true → listLt b c = true → listLt a c = true := by
  intro a
  induction a with
  | nil =>
    intro b c hab hbc
    cases b with
    | nil => exact hbc
    | cons y ys =>
      cases c with
      | nil => simp [listLt] at hbc
      | cons z zs => rfl
  | cons x xs ih =>
    intro b c hab hbc
    cases b with
    | nil => simp [listLt] at hab
    | cons y ys =>
      cases c with
      | nil => simp [listLt] at hbc
      | cons z zs =>
        simp only [listLt, Bool.or_eq_true, Bool.and_eq_true, decide_eq_true_eq,
          beq_iff_eq] at hab hbc ⊢
        rcases hab with h1 | ⟨he1, h1⟩ <;> rcases hbc with h2 | ⟨he2, h2⟩
        · exact Or.inl (Nat.lt_trans h1 h2)
        · exact Or.inl (he2 ▸ h1)
        · exact Or.inl (he1 ▸ h2)
        · exact Or.inr ⟨he1.trans he2, ih ys zs h1 h2⟩

theorem listLt_total : ∀ a b : List Nat,
    listLt a b = true ∨ listLt b a = true ∨ a = b := by
  intro a
  induction a with
  | nil =>
    intro b
    cases b with
    | nil => exact Or.inr (Or.inr rfl)
    | cons y ys => exact Or.inl rfl
  | cons x xs ih =>
    intro b
    cases b with
    | nil => exact Or.inr (Or.inl rfl)
    | cons y ys =>
      rcases Nat.lt_trichotomy x y with h | h | h
      · exact Or.inl (by simp [listLt, h])
      · subst h
        rcases ih ys with h' | h' | h'
        · exact Or.inl (by simp [listLt, h'])
        · exact Or.inr (Or.inl (by simp [listLt, h']))
        · exact Or.inr (Or.inr (by rw [h']))
      · exact Or.inr (Or.inl (by simp [listLt, h]))

theorem listLt_append_same : ∀ (as bs : List Nat), as.length = bs.length →
    ∀ x, listLt (as ++ [x]) (bs ++ [x]) = listLt as bs := by
  intro as
  induction as with
  | nil =>
    intro bs hlen x
    cases bs with
    | nil => simp [listLt]
    | cons b bs => simp at hlen
  | cons a as ih =>
    intro bs hlen x
    cases bs with
    | nil => simp at hlen
    | cons b bs =>
      simp only [List.length_cons, Nat.succ.injEq] at hlen
      simp only [List.cons_append, listLt, List.append_eq, ih bs hlen x]

theorem listLt_append_ne : ∀ (as bs : List Nat), as.length = bs.length → as ≠ bs →
    ∀ x y, listLt (as ++ [x]) (bs ++ [y]) = listLt as bs := by
  intro as
  induction as with
  | nil =>
    intro bs hlen hne x y
    cases bs with
    | nil => exact absurd rfl hne
    | cons b bs => simp at hlen
  | cons a as ih =>
    intro bs hlen hne x y
    cases bs with
    | nil => simp at hlen
    | cons b bs =>
      simp only [List.length_cons, Nat.succ.injEq] at hlen
      by_cases hab : a = b
      · subst hab
        have hne' : as ≠ bs := fun h => hne (by rw [h])
        simp only [List.cons_append, listLt, List.append_eq, ih bs hlen hne' x y]
      · simp only [List.cons_append, listLt]
        have : (a == b) = false := by simp [hab]
        simp [this]

theorem absInt64_eq_abs {x : Int} (hlo : int64Min < x) (hhi : x < twoPow63) :
    absInt64 x = |x| := by
  unfold int64Min at hlo
  unfold twoPow63 at hhi
  rcases le_or_lt 0 x with h | h
  · rw [abs_of_nonneg h]
    unfold absInt64 wrap64 twoPow63 twoPow64
    rw [if_neg (by omega)]
    omega
  · rw [abs_of_neg h]
    unfold absInt64 wrap64 twoPow63 twoPow64
    rw [if_pos h]
    omega

theorem id_eq_of_pos_natAbs {x y : Int} (hp : decide (0 < x) = decide (0 < y))
    (ha : x.natAbs = y.natAbs) : x = y := by
  have h : (0 < x) ↔ (0 < y) := decide_eq_decide.mp hp
  omega

theorem bool_toNat_inj {a b : Bool} (h : a.toNat = b.toNat) : a = b := by
  cases a <;> cases b <;> simp_all

theorem bool_comparable (x y : Bool) (h : ¬(x = false ∧ y = false)) :
    x = true ∨ y = true := by
  cases x <;> cases y <;> simp_all

theorem pairLt_irrefl (p : Bool × Int) : pairLt p p = false := by
  rcases p with ⟨b, n⟩
  cases b <;> simp [pairLt, boolLt]

theorem pairLt_trans (p q r : Bool × Int) (h1 : pairLt p q = true)
    (h2 : pairLt q r = true) : pairLt p r = true := by
  rcases p with ⟨b1, n1⟩
  rcases q with ⟨b2, n2⟩
  rcases r with ⟨b3, n3⟩
  cases b1 <;> cases b2 <;> cases b3 <;>
    simp [pairLt, boolLt] at h1 h2 ⊢ <;> omega

theorem agree_of_ts_eq (a b : MapObject) (ht : a.timestamp = b.timestamp) :
    object_order_type_id_version a b =
    object_order_type_id_version_without_timestamp a b := by
  unfold object_order_type_id_version object_order_type_id_version_without_timestamp keyV keyWT
  rw [ht]
  exact listLt_append_same
    [a.kind, (idPos a).toNat, positive_id a, a.version]
    [b.kind, (idPos b).toNat, positive_id b, b.version] rfl (tsKey b.timestamp)

theorem rev_irrefl (a : MapObject) :
    object_order_type_id_reverse_version a a = false :=
  listLt_irrefl _

theorem rev_trans (a b c : MapObject)
    (hab : object_order_type_id_reverse_version a b = true)
    (hbc : object_order_type_id_reverse_version b c = true) :
    object_order_type_id_reverse_version a c = true := by
  unfold object_order_type_id_reverse_version revKeyL revKeyR tsValid at hab hbc ⊢
  rcases hta : a.timestamp with _ | ta <;> rcases htb : b.timestamp with _ | tb <;>
    rcases htc : c.timestamp with _ | tc <;>
    rw [hta, htb] at hab <;> rw [htb, htc] at hbc <;>
    simp [listLt, tsKey] at hab hbc ⊢ <;> omega

theorem id_order_iff_spec_key (x y : Int) (hx1 : int64Min < x) (hx2 : x < twoPow63)
    (hy1 : int64Min < y) (hy2 : y < twoPow63) :
    id_order x y = true ↔ spec_key_lt x y := by
  have hax := absInt64_eq_abs hx1 hx2
  have hay := absInt64_eq_abs hy1 hy2
  have habs : |x| < |y| ↔ x.natAbs < y.natAbs := by
    rw [Int.abs_eq_natAbs x, Int.abs_eq_natAbs y]
    exact_mod_cast Iff.rfl
  simp only [id_order, pairLt, boolLt, Bool.or_eq_true, Bool.and_eq_true,
    Bool.not_eq_true', beq_iff_eq, decide_eq_true_eq, decide_eq_false_iff_not,
    decide_eq_decide, spec_key_lt, hax, hay, habs]

theorem id_order_nonpos_before_pos (x y : Int) (hx : x ≤ 0) (hy : 0 < y) :
    id_order x y = true := by
  simp [id_order, pairLt, boolLt, hy, not_lt.mpr hx]

theorem rev_higher_version_first (a b : MapObject) (hk : a.kind = b.kind)
    (hi : a.id = b.id) (hv : b.version < a.version) :
    object_order_type_id_reverse_version a b = true ∧
    object_order_type_id_reverse_version b a = false := by
  constructor
  · simp [object_order_type_id_reverse_version, listLt, idPos, positive_id, hk, hi, hv]
  · simp [object_order_type_id_reverse_version, listLt, idPos, positive_id, hk, hi]
    omega

theorem rev_ts_tiebreak_valid (a b : MapObject) (hk : a.kind = b.kind)
    (hi : a.id = b.id) (hv : a.version = b.version) (t1 t2 : Nat)
    (hta : a.timestamp = some t2) (htb : b.timestamp = some t1) (ht : t1 < t2) :
    object_order_type_id_reverse_version a b = true ∧
    object_order_type_id_reverse_version b a = false := by
  constructor
  · simp [object_order_type_id_reverse_version, listLt, idPos, positive_id,
      revKeyL, revKeyR, tsValid, tsKey, hk, hi, hv, hta, htb, ht]
  · simp [object_order_type_id_reverse_version, listLt, idPos, positive_id,
      revKeyL, revKeyR, tsValid, tsKey, hk, hi, hv, hta, htb]
    omega

theorem rev_ts_tiebreak_invalid (a b : MapObject) (hk : a.kind = b.kind)
    (hi : a.id = b.id) (hv : a.version = b.version)
    (h : a.timestamp = none ∨ b.timestamp = none) :
    object_order_type_id_reverse_version a b = false ∧
    object_order_type_id_reverse_version b a = false := by
  rcases h with h | h <;>
    constructor <;>
    simp [object_order_type_id_reverse_version, listLt, idPos, positive_id,
      revKeyL, revKeyR, tsValid, tsKey, hk, hi, hv, h]

theorem eq_tidv_symm (a b : MapObject) :
    object_equal_type_id_version a b = object_equal_type_id_version b a := by
  rw [Bool.eq_iff_iff]
  simp only [object_equal_type_id_version, Bool.and_eq_true, beq_iff_eq]
  constructor <;> intro h <;> exact ⟨⟨h.1.1.symm, h.1.2.symm⟩, h.2.symm⟩

theorem order_disagree_only_on_ts (a b : MapObject)
    (hne : object_order_type_id_version a b ≠
           object_order_type_id_version_without_timestamp a b) :
    a.timestamp ≠ b.timestamp ∧ a.kind = b.kind ∧ a.id = b.id ∧
    a.version = b.version := by
  by_cases hK : keyWT a = keyWT b
  · have h4 := hK
    simp only [keyWT, List.cons.injEq, and_true] at h4
    obtain ⟨h1, h2, ⟨h3, h4v⟩⟩ := h4
    have hpos : idPos a = idPos b := bool_toNat_inj h2
    have hid : a.id = b.id := id_eq_of_pos_natAbs hpos h3
    exact ⟨fun h => hne (agree_of_ts_eq a b h), h1, hid, h4v⟩
  · exfalso
    apply hne
    unfold object_order_type_id_version object_order_type_id_version_without_timestamp
    exact listLt_append_ne (keyWT a) (keyWT b) rfl hK
      (tsKey a.timestamp) (tsKey b.timestamp)

/-! ### Claim theorems -/

/-- C1 counterexample: at `x = -2^63` (where `std::abs` wraps around),
`id_order` accepts the pair `(-2^63, 0)` although the magnitude-signed
key of `-2^63`, namely `(false, 2^63)`, is not lexicographically less
than the key `(false, 0)` of `0` — so the claimed equivalence fails for
the full signed 64-bit domain. -/
theorem id_order_spec_key_mismatch_at_int64Min :
    id_order int64Min 0 = true ∧ ¬ spec_key_lt int64Min 0 :=
  ⟨by decide, by decide⟩

/-- C1 (amended): for every pair of signed 64-bit identifiers strictly
greater than `-2^63`, `id_order x y` holds exactly when the pair
`(x > 0, |x|)` is lexicographically less than `(y > 0, |y|)`; every
non-positive identifier sorts before every positive one; and sorting
`{-2, -1, 0, 1, 2}` under `id_order` yields `[0, -1, -2, 1, 2]`. -/
theorem id_order_magnitude_signed :
    (∀ x y : Int, int64Min < x → x < twoPow63 → int64Min < y → y < twoPow63 →
       (id_order x y = true ↔ spec_key_lt x y)) ∧
    (∀ x y : Int, x ≤ 0 → 0 < y → id_order x y = true) ∧
    sortById [-2, -1, 0, 1, 2] = [0, -1, -2, 1, 2] :=
  ⟨id_order_iff_spec_key, id_order_nonpos_before_pos, by decide⟩

/-- C1 witness: the amended equivalence and the non-positive-first rule
instantiated at concrete in-range identifiers. -/
theorem id_order_magnitude_signed_witness :
    (id_order (-1) (-2) = true ↔ spec_key_lt (-1) (-2)) ∧
    id_order (-3) 1 = true :=
  ⟨id_order_magnitude_signed.1 (-1) (-2) (by decide) (by decide) (by decide)
     (by decide),
   id_order_magnitude_signed.2.1 (-3) 1 (by decide) (by decide)⟩

/-- C2: for two records with identical `kind` and `id` and versions
`v1 < v2`, `object_order_type_id_reverse_version` places the record
with `v2` strictly before the record with `v1`. -/
theorem reverse_version_orders_higher_version_first :
    ∀ a b : MapObject, a.kind = b.kind → a.id = b.id →
      b.version < a.version →
      object_order_type_id_reverse_version a b = true ∧
      object_order_type_id_reverse_version b a = false :=
  rev_higher_version_first

/-- C2 witness: the reverse-version rule at two concrete versions of
the same object. -/
theorem reverse_version_orders_higher_version_first_witness :
    object_order_type_id_reverse_version ⟨0, 7, 2, none⟩ ⟨0, 7, 1, none⟩ = true ∧
    object_order_type_id_reverse_version ⟨0, 7, 1, none⟩ ⟨0, 7, 2, none⟩ = false :=
  reverse_version_orders_higher_version_first ⟨0, 7, 2, none⟩ ⟨0, 7, 1, none⟩
    rfl rfl (by decide)

/-- C3: for records with equal `kind`, `id` and `version`, if both
timestamps are valid and `t1 < t2` the record carrying `t2` sorts
strictly before the record carrying `t1` under
`object_order_type_id_reverse_version`; if either timestamp is invalid,
neither record strictly precedes the other, whatever the other
timestamp is. -/
theorem reverse_version_timestamp_tiebreak :
    (∀ (a b : MapObject) (t1 t2 : Nat), a.kind = b.kind → a.id = b.id →
       a.version = b.version → a.timestamp = some t2 →
       b.timestamp = some t1 → t1 < t2 →
       object_order_type_id_reverse_version a b = true ∧
       object_order_type_id_reverse_version b a = false) ∧
    (∀ a b : MapObject, a.kind = b.kind → a.id = b.id →
       a.version = b.version →
       (a.timestamp = none ∨ b.timestamp = none) →
       object_order_type_id_reverse_version a b = false ∧
       object_order_type_id_reverse_version b a = false) :=
  ⟨fun a b t1 t2 hk hi hv hta htb ht =>
     rev_ts_tiebreak_valid a b hk hi hv t1 t2 hta htb ht,
   rev_ts_tiebreak_invalid⟩

/-- C3 witness: the timestamp tie-break at concrete records, once with
two valid timestamps and once with an invalid one. -/
theorem reverse_version_timestamp_tiebreak_witness :
    (object_order_type_id_reverse_version ⟨0, 7, 1, some 5⟩ ⟨0, 7, 1, some 3⟩ = true ∧
     object_order_type_id_reverse_version ⟨0, 7, 1, some 3⟩ ⟨0, 7, 1, some 5⟩ = false) ∧
    (object_order_type_id_reverse_version ⟨0, 7, 1, none⟩ ⟨0, 7, 1, some 3⟩ = false ∧
     object_order_type_id_reverse_version ⟨0, 7, 1, some 3⟩ ⟨0, 7, 1, none⟩ = false) :=
  ⟨reverse_version_timestamp_tiebreak.1 ⟨0, 7, 1, some 5⟩ ⟨0, 7, 1, some 3⟩
     3 5 rfl rfl rfl rfl rfl (by decide),
   reverse_version_timestamp_tiebreak.2 ⟨0, 7, 1, none⟩ ⟨0, 7, 1, some 3⟩
     rfl rfl rfl (Or.inl rfl)⟩

/-- C4: each of `object_order_type_id_version`,
`object_order_type_id_version_without_timestamp`,
`object_order_type_id_reverse_version` and `id_order` is irreflexive
and transitive, and any two inequivalent operands (operands for which
not both comparisons are false) are comparable. -/
theorem comparator_strict_order_properties :
    ((∀ a, object_order_type_id_version a a = false) ∧
     (∀ a b c, object_order_type_id_version a b = true →
        object_order_type_id_version b c = true →
        object_order_type_id_version a c = true) ∧
     (∀ a b, ¬(object_order_type_id_version a b = false ∧
               object_order_type_id_version b a = false) →
        object_order_type_id_version a b = true ∨
        object_order_type_id_version b a = true)) ∧
    ((∀ a, object_order_type_id_version_without_timestamp a a = false) ∧
     (∀ a b c, object_order_type_id_version_without_timestamp a b = true →
        object_order_type_id_version_without_timestamp b c = true →
        object_order_type_id_version_without_timestamp a c = true) ∧
     (∀ a b, ¬(object_order_type_id_version_without_timestamp a b = false ∧
               object_order_type_id_version_without_timestamp b a = false) →
        object_order_type_id_version_without_timestamp a b = true ∨
        object_order_type_id_version_without_timestamp b a = true)) ∧
    ((∀ a, object_order_type_id_reverse_version a a = false) ∧
     (∀ a b c, object_order_type_id_reverse_version a b = true →
        object_order_type_id_reverse_version b c = true →
        object_order_type_id_reverse_version a c = true) ∧
     (∀ a b, ¬(object_order_type_id_reverse_version a b = false ∧
               object_order_type_id_reverse_version b a = false) →
        object_order_type_id_reverse_version a b = true ∨
        object_order_type_id_reverse_version b a = true)) ∧
    ((∀ x : Int, id_order x x = false) ∧
     (∀ x y z : Int, id_order x y = true → id_order y z = true →
        id_order x z = true) ∧
     (∀ x y : Int, ¬(id_order x y = false ∧ id_order y x = false) →
        id_order x y = true ∨ id_order y x = true)) :=
  ⟨⟨fun a => listLt_irrefl (keyV a),
    fun a b c => listLt_trans (keyV a) (keyV b) (keyV c),
    fun _ _ => bool_comparable _ _⟩,
   ⟨fun a => listLt_irrefl (keyWT a),
    fun a b c => listLt_trans (keyWT a) (keyWT b) (keyWT c),
    fun _ _ => bool_comparable _ _⟩,
   ⟨rev_irrefl, rev_trans, fun _ _ => bool_comparable _ _⟩,
   ⟨fun _ => pairLt_irrefl _,
    fun _ _ _ => pairLt_trans _ _ _,
    fun _ _ => bool_comparable _ _⟩⟩

/-- C4 witness: transitivity of all four predicates exercised at
concrete chains. -/
theorem comparator_strict_order_properties_witness :
    object_order_type_id_version ⟨0, 1, 1, none⟩ ⟨0, 1, 3, none⟩ = true ∧
    object_order_type_id_version_without_timestamp ⟨0, 1, 1, none⟩ ⟨0, 3, 1, none⟩ = true ∧
    object_order_type_id_reverse_version ⟨0, 1, 3, none⟩ ⟨0, 1, 1, none⟩ = true ∧
    id_order 0 (-2) = true :=
  ⟨comparator_strict_order_properties.1.2.1 ⟨0, 1, 1, none⟩ ⟨0, 1, 2, none⟩
     ⟨0, 1, 3, none⟩ (by decide) (by decide),
   comparator_strict_order_properties.2.1.2.1 ⟨0, 1, 1, none⟩ ⟨0, 2, 1, none⟩
     ⟨0, 3, 1, none⟩ (by decide) (by decide),
   comparator_strict_order_properties.2.2.1.2.1 ⟨0, 1, 3, none⟩ ⟨0, 1, 2, none⟩
     ⟨0, 1, 1, none⟩ (by decide) (by decide),
   comparator_strict_order_properties.2.2.2.2.1 0 (-1) (-2) (by decide)
     (by decide)⟩

/-- C5: `object_order_type_id_version` and
`object_order_type_id_version_without_timestamp` agree whenever the two
records carry the same timestamp value (in particular when both are
invalid), and they can disagree on a pair only when the timestamps
differ while `kind`, `id` and `version` are all equal. -/
theorem order_with_and_without_timestamp_agreement :
    (∀ a b : MapObject, a.timestamp = b.timestamp →
       object_order_type_id_version a b =
       object_order_type_id_version_without_timestamp a b) ∧
    (∀ a b : MapObject,
       object_order_type_id_version a b ≠
       object_order_type_id_version_without_timestamp a b →
       a.timestamp ≠ b.timestamp ∧ a.kind = b.kind ∧ a.id = b.id ∧
       a.version = b.version) :=
  ⟨agree_of_ts_eq, order_disagree_only_on_ts⟩

/-- C5 witness: agreement of the two orders at records with identical
timestamps. -/
theorem order_with_and_without_timestamp_agreement_witness :
    object_order_type_id_version ⟨0, 1, 1, some 3⟩ ⟨0, 2, 1, some 3⟩ =
    object_order_type_id_version_without_timestamp ⟨0, 1, 1, some 3⟩ ⟨0, 2, 1, some 3⟩ :=
  order_with_and_without_timestamp_agreement.1 ⟨0, 1, 1, some 3⟩
    ⟨0, 2, 1, some 3⟩ rfl

/-- C6: `object_equal_type_id_version` is true exactly when `kind`,
`id` and `version` all coincide; records differing only in timestamp
are equal under it, and it is reflexive and symmetric. -/
theorem object_equal_type_id_version_characterization :
    (∀ a b : MapObject, object_equal_type_id_version a b = true ↔
       (a.kind = b.kind ∧ a.id = b.id ∧ a.version = b.version)) ∧
    (∀ (a : MapObject) (t1 t2 : Option Nat),
       object_equal_type_id_version
         { a with timestamp := t1 } { a with timestamp := t2 } = true) ∧
    (∀ a : MapObject, object_equal_type_id_version a a = true) ∧
    (∀ a b : MapObject, object_equal_type_id_version a b =
       object_equal_type_id_version b a) :=
  ⟨fun a b => by
     simp [object_equal_type_id_version, and_assoc],
   fun a t1 t2 => by simp [object_equal_type_id_version],
   fun a => by simp [object_equal_type_id_version],
   eq_tidv_symm⟩

/-- C7: records with equal `kind` and `id` but different `version` are
equal under `object_equal_type_id` and unequal under
`object_equal_type_id_version`; `object_equal_type_id` never reads the
versions. -/
theorem object_equal_type_id_ignores_version :
    (∀ a b : MapObject, a.kind = b.kind → a.id = b.id →
       a.version ≠ b.version →
       object_equal_type_id a b = true ∧
       object_equal_type_id_version a b = false) ∧
    (∀ (a b : MapObject) (v1 v2 : Nat),
       object_equal_type_id { a with version := v1 } { b with version := v2 } =
       object_equal_type_id a b) :=
  ⟨fun a b hk hi hv =>
     ⟨by simp [object_equal_type_id, hk, hi],
      by simp [object_equal_type_id_version, hk, hi, hv]⟩,
   fun _ _ _ _ => rfl⟩

/-- C7 witness: two concrete versions of the same object. -/
theorem object_equal_type_id_ignores_version_witness :
    object_equal_type_id ⟨0, 7, 1, none⟩ ⟨0, 7, 2, none⟩ = true ∧
    object_equal_type_id_version ⟨0, 7, 1, none⟩ ⟨0, 7, 2, none⟩ = false :=
  object_equal_type_id_ignores_version.1 ⟨0, 7, 1, none⟩ ⟨0, 7, 2, none⟩
    rfl rfl (by decide)

/-- C8: `object_order_type_id_version_without_timestamp` is
timestamp-insensitive — replacing either record's timestamp by any
value, valid or invalid, never changes the result. -/
theorem without_timestamp_noninterference :
    ∀ (a b : MapObject) (t1 t2 : Option Nat),
      object_order_type_id_version_without_timestamp
          { a with timestamp := t1 } { b with timestamp := t2 } =
        object_order_type_id_version_without_timestamp a b :=
  fun _ _ _ _ => rfl

/-- C9 counterexample: `id_order` declares neither a by-reference nor a
by-pointer `operator()` — its single overload takes two ids by value —
refuting the claim that all six predicates provide both forms. -/
theorem id_order_overload_surface :
    hasReferenceOverload Comparator.idOrder = false ∧
    hasPointerOverload Comparator.idOrder = false :=
  ⟨rfl, rfl⟩

/-- C9 (amended): each of the five object predicates provides both a
by-reference and a by-pointer overload, and on every pair of non-null
pointers the by-pointer overload returns exactly the by-reference
result on the pointed-to records, its non-null assertion never firing
(the result is `some _`, never the assertion-failure `none`); `id_order`
provides only a single by-value overload on identifiers. -/
theorem pointer_overloads_agree_with_reference :
    (∀ l r : MapObject, object_equal_type_id_versionPtr (some l) (some r) =
       some (object_equal_type_id_version l r)) ∧
    (∀ l r : MapObject, object_equal_type_idPtr (some l) (some r) =
       some (object_equal_type_id l r)) ∧
    (∀ l r : MapObject, object_order_type_id_versionPtr (some l) (some r) =
       some (object_order_type_id_version l r)) ∧
    (∀ l r : MapObject,
       object_order_type_id_version_without_timestampPtr (some l) (some r) =
       some (object_order_type_id_version_without_timestamp l r)) ∧
    (∀ l r : MapObject,
       object_order_type_id_reverse_versionPtr (some l) (some r) =
       some (object_order_type_id_reverse_version l r)) ∧
    (hasReferenceOverload .objectEqualTypeIdVersion = true ∧
     hasPointerOverload .objectEqualTypeIdVersion = true) ∧
    (hasReferenceOverload .objectEqualTypeId = true ∧
     hasPointerOverload .objectEqualTypeId = true) ∧
    (hasReferenceOverload .objectOrderTypeIdVersion = true ∧
     hasPointerOverload .objectOrderTypeIdVersion = true) ∧
    (hasReferenceOverload .objectOrderTypeIdVersionWithoutTimestamp = true ∧
     hasPointerOverload .objectOrderTypeIdVersionWithoutTimestamp = true) ∧
    (hasReferenceOverload .objectOrderTypeIdReverseVersion = true ∧
     hasPointerOverload .objectOrderTypeIdReverseVersion = true) ∧
    (hasReferenceOverload .idOrder = false ∧
     hasPointerOverload .idOrder = false) :=
  ⟨fun _ _ => rfl, fun _ _ => rfl, fun _ _ => rfl, fun _ _ => rfl,
   fun _ _ => rfl, ⟨rfl, rfl⟩, ⟨rfl, rfl⟩, ⟨rfl, rfl⟩, ⟨rfl, rfl⟩,
   ⟨rfl, rfl⟩, ⟨rfl, rfl⟩⟩

/-- C10: the embedded `std::abs` of `id_order` is exact on every signed
64-bit identifier strictly above `-2^63`, while at `-2^63` the two's
complement wraparound yields `-2^63` itself, which differs from the
true absolute value — so the magnitude-signed key is well defined only
away from `-2^63`; `id_order` is literally the lexicographic comparison
of the `(id > 0, absInt64 id)` keys. -/
theorem absInt64_exact_above_int64Min :
    (∀ x : Int, int64Min < x → x < twoPow63 → absInt64 x = |x|) ∧
    absInt64 int64Min = int64Min ∧
    absInt64 int64Min ≠ |int64Min| ∧
    (∀ x y : Int, id_order x y =
       pairLt (decide (0 < x), absInt64 x) (decide (0 < y), absInt64 y)) :=
  ⟨fun x h1 h2 => absInt64_eq_abs h1 h2, by decide, by decide,
   fun x y => rfl⟩

/-- C10 witness: exactness of the embedded `std::abs` at a concrete
negative identifier. -/
theorem absInt64_exact_above_int64Min_witness :
    absInt64 (-7) = |(-7 : Int)| :=
  absInt64_exact_above_int64Min.1 (-7) (by decide) (by decide)

end Osmium
